import Mathlib

/-!
Verification of the LemonData model-search tool (`search_api.py`).

The development shallowly embeds the program's pure pipeline — classification,
enrichment, search and formatting — together with the boundary behaviour of its
two HTTP fetches, and proves the documented properties about it.
-/

/-- Boolean test that the first character list occurs at the head of the second,
embedding Python string pattern matching at the character level. -/
def strStartsWith : List Char → List Char → Bool
  | [], _ => true
  | _ :: _, [] => false
  | a :: as, b :: bs => a == b && strStartsWith as bs

/-- Boolean substring containment on character lists. -/
def charsContain (needle : List Char) : List Char → Bool
  | [] => needle.isEmpty
  | b :: bs => strStartsWith needle (b :: bs) || charsContain needle bs

/-- `strContains needle hay` embeds Python's `needle in hay` on strings. -/
def strContains (needle hay : String) : Bool :=
  charsContain needle.toList hay.toList

/-- Embeds Python's `str.lower()`. The identifiers and keywords the program
compares are ASCII, so ASCII case mapping (`Char.toLower`) is the faithful
model; non-ASCII characters such as the emoji in category labels are fixed
points of both mappings. -/
def pyLower (s : String) : String :=
  String.mk (s.toList.map Char.toLower)

/-- Embeds `any(x in s for x in kws)` from the classifier. -/
def kwMatch (kws : List String) (s : String) : Bool :=
  kws.any (fun x => strContains x s)

/-- Embedding of `get_model_category` from `search_api.py`: lower-case the model
id, then test the keyword groups in the source's fixed order, first match wins;
the `owned_by` argument is accepted but unused, exactly as in the source. -/
def get_model_category (model_id : String) (owned_by : String) : String :=
  let model_lower := pyLower model_id
  if kwMatch ["sora", "runway", "kling", "luma", "pika", "video"] model_lower then
    "🎬 Video Generation"
  else if kwMatch ["suno", "music", "udio"] model_lower then
    "🎵 Music Generation"
  else if kwMatch ["tripo", "3d", "mesh"] model_lower then
    "🗿 3D Models"
  else if kwMatch ["dall-e", "dalle", "midjourney", "flux", "sd", "stable", "imagen", "ideogram"] model_lower then
    "🎨 Image Generation"
  else if kwMatch ["tts", "whisper", "speech", "audio"] model_lower then
    "🎤 Audio Processing"
  else if kwMatch ["embedding", "embed"] model_lower then
    "📊 Embeddings"
  else if kwMatch ["rerank"] model_lower then
    "🔄 Rerank"
  else
    "💬 Chat Completion"

/-- The classifier's seven keyword groups paired with their labels, in the
priority order in which `get_model_category` tests them. -/
def categoryGroups : List (List String × String) :=
  [ (["sora", "runway", "kling", "luma", "pika", "video"], "🎬 Video Generation"),
    (["suno", "music", "udio"], "🎵 Music Generation"),
    (["tripo", "3d", "mesh"], "🗿 3D Models"),
    (["dall-e", "dalle", "midjourney", "flux", "sd", "stable", "imagen", "ideogram"],
      "🎨 Image Generation"),
    (["tts", "whisper", "speech", "audio"], "🎤 Audio Processing"),
    (["embedding", "embed"], "📊 Embeddings"),
    (["rerank"], "🔄 Rerank") ]

/-- The k-th keyword group (out of range defaults to the chat fallback). -/
def nthGroup (k : Nat) : List String × String :=
  categoryGroups.getD k ([], "💬 Chat Completion")

/-- The closed set of the eight category labels the program uses. -/
def categoryLabels : List String :=
  [ "💬 Chat Completion", "🎨 Image Generation", "🎬 Video Generation",
    "🎵 Music Generation", "🗿 3D Models", "🎤 Audio Processing",
    "📊 Embeddings", "🔄 Rerank" ]

/-- A raw model record from the catalog service: only `id` and `owned_by` are
consumed by the program (`model.get("id", "")`, `model.get("owned_by", "")`). -/
structure RawModel where
  id : String
  owned_by : String
deriving DecidableEq, Repr

/-- A pricing record from the pricing service: four optional fields, exactly
the keys `enrich_models` reads (`input_per_1m`, `output_per_1m`, `per_request`,
`is_lock_price`). Prices are JSON numbers, embedded as rationals. -/
structure PriceInfo where
  input_per_1m : Option ℚ
  output_per_1m : Option ℚ
  per_request : Option ℚ
  is_lock_price : Option Bool
deriving DecidableEq, Repr

/-- The empty pricing record `{}` that `pricing.get(model_id, {})` yields for a
model id absent from the pricing mapping. -/
def emptyPriceInfo : PriceInfo :=
  { input_per_1m := none, output_per_1m := none, per_request := none,
    is_lock_price := none }

/-- The normalized record `enrich_models` builds for each model; every key is
always present (absent upstream values are stored as `none`). -/
structure EnrichedModel where
  id : String
  owned_by : String
  category : String
  input_price : Option ℚ
  output_price : Option ℚ
  per_request : Option ℚ
  is_lock_price : Bool
deriving DecidableEq, Repr

/-- The body of the `for model in models` loop of `enrich_models`: look the id
up in the pricing mapping (missing entries give the empty record), classify,
and build the enriched record. -/
def enrich_one (pricing : String → Option PriceInfo) (model : RawModel) :
    EnrichedModel :=
  let price_info := (pricing model.id).getD emptyPriceInfo
  { id := model.id
    owned_by := model.owned_by
    category := get_model_category model.id model.owned_by
    input_price := price_info.input_per_1m
    output_price := price_info.output_per_1m
    per_request := price_info.per_request
    is_lock_price := price_info.is_lock_price.getD false }

/-- Embedding of `enrich_models` from `search_api.py`. -/
def enrich_models (models : List RawModel) (pricing : String → Option PriceInfo) :
    List EnrichedModel :=
  models.map (enrich_one pricing)

/-- Embedding of `search_models` from `search_api.py`: Python's `if category:`
and `if keyword:` are truthiness tests, so a `none` argument and an empty
string alike skip the corresponding filter. -/
def search_models (models : List EnrichedModel) (keyword : Option String)
    (category : Option String) : List EnrichedModel :=
  let results := models
  let results :=
    match category with
    | some c =>
        if c = "" then results
        else results.filter (fun m => strContains (pyLower c) (pyLower m.category))
    | none => results
  let results :=
    match keyword with
    | some kw =>
        if kw = "" then results
        else results.filter (fun m =>
          strContains (pyLower kw) (pyLower m.id) ||
          strContains (pyLower kw) (pyLower m.owned_by) ||
          strContains (pyLower kw) (pyLower m.category))
    | none => results
  results

/-- How the embedding renders a Python number in an f-string. -/
def showNum (q : ℚ) : String := toString q

/-- Rendering of an optional number in an f-string: Python prints the value
`None` as the text `None`. -/
def showOptNum : Option ℚ → String
  | none => "None"
  | some q => showNum q

/-- Python truthiness of an optional number: `None` and `0` are falsy. -/
def truthyNum : Option ℚ → Bool
  | none => false
  | some q => decide (q ≠ 0)

/-- The pricing line selected inside `format_model_info` (`price_str` in the
source). The two leading conditions are Python truthiness tests on
`model.get("is_lock_price")` and `model.get("per_request")` /
`model.get("input_price")`; since `enrich_models` always stores the
`output_price` key, `model.get("output_price", "N/A")` returns the stored
value, which f-string rendering prints as `None` when absent. -/
def price_str (model : EnrichedModel) : String :=
  if model.is_lock_price && truthyNum model.per_request then
    "$" ++ showOptNum model.per_request ++ "/request"
  else if truthyNum model.input_price then
    "Input $" ++ showOptNum model.input_price ++ "/1M, Output $" ++
      showOptNum model.output_price ++ "/1M"
  else
    "Pricing TBD"

/-- Embedding of `format_model_info` from `search_api.py`. -/
def format_model_info (model : EnrichedModel) (index : Nat) : String :=
  let idx := if index > 0 then toString index ++ ". " else ""
  idx ++ "**" ++ model.id ++ "**\n   - Category: " ++ model.category ++
    "\n   - Provider: " ++ model.owned_by ++
    "\n   - Pricing: " ++ price_str model ++
    "\n   - Docs: https://docs.lemondata.cc/api-reference"

/-- Embedding of `get_api_endpoint` from `search_api.py`: a lookup in a literal
table of the eight labels, defaulting to the chat-completion endpoint. -/
def get_api_endpoint (category : String) : String :=
  if category = "💬 Chat Completion" then "/v1/chat/completions"
  else if category = "🎨 Image Generation" then "/v1/images/generations"
  else if category = "🎬 Video Generation" then "/v1/video/generations"
  else if category = "🎵 Music Generation" then "/v1/music/generations"
  else if category = "🗿 3D Models" then "/v1/3d/generations"
  else if category = "🎤 Audio Processing" then "/v1/audio/speech or /v1/audio/transcriptions"
  else if category = "📊 Embeddings" then "/v1/embeddings"
  else if category = "🔄 Rerank" then "/v1/rerank"
  else "/v1/chat/completions"

/-- Outcome of one HTTP GET at the requests-library boundary: `success` carries
the parsed JSON body's optional `data` payload (`data.get("data", ...)`),
`failure` is a `requests.exceptions.RequestException` — a transport failure or
the `HTTPError` that `raise_for_status` raises on a non-2xx status. -/
inductive HttpResult (α : Type) where
  | success (data : Option α)
  | failure (msg : String)

/-- One item of the pricing payload: `item["model"]` and its optional
`pricing` sub-object (`item.get("pricing", {})`). -/
structure PricingItem where
  model : String
  pricing : Option PriceInfo

/-- The loop of `fetch_pricing` building `pricing[item["model"]] = ...`:
later items override earlier ones, as in a Python dict assignment. -/
def build_pricing (items : List PricingItem) : String → Option PriceInfo :=
  items.foldl
    (fun acc item k =>
      if k = item.model then some (item.pricing.getD emptyPriceInfo) else acc k)
    (fun _ => none)

/-- Embedding of `fetch_models`: on success return the body's `data` array (or
`[]` when the key is absent); on a request exception re-raise, which is fatal
to the caller. -/
def fetch_models (r : HttpResult (List RawModel)) : Except String (List RawModel) :=
  match r with
  | .success d => .ok (d.getD [])
  | .failure e => .error ("Failed to fetch model list: " ++ e)

/-- Embedding of `fetch_pricing`: on success build the model→pricing mapping;
on any request exception swallow it and return the empty mapping. -/
def fetch_pricing (r : HttpResult (List PricingItem)) : String → Option PriceInfo :=
  match r with
  | .success d => build_pricing (d.getD [])
  | .failure _ => fun _ => none

/-- The fetch-and-enrich stage of `main`: `fetch_models` then `fetch_pricing`
then `enrich_models`, with any raised error propagating to the handler. -/
def run_fetch_stage (mr : HttpResult (List RawModel))
    (pr : HttpResult (List PricingItem)) : Except String (List EnrichedModel) :=
  match fetch_models mr with
  | .error e => .error e
  | .ok models => .ok (enrich_models models (fetch_pricing pr))

/-- Exit code of `main`'s fetch stage: the `except` handler exits with code 1,
otherwise execution continues (and every later path exits with code 0). -/
def fetch_stage_exit (mr : HttpResult (List RawModel))
    (pr : HttpResult (List PricingItem)) : Nat :=
  match run_fetch_stage mr pr with
  | .error _ => 1
  | .ok _ => 0

/-- A concrete enriched record with an input price but no output price, as
`enrich_models` produces for a pricing entry carrying only `input_per_1m`. -/
def inputOnlyModel : EnrichedModel :=
  { id := "gpt-4o", owned_by := "openai", category := "💬 Chat Completion",
    input_price := some 1, output_price := none, per_request := none,
    is_lock_price := false }

/-- A concrete enriched record with a lock price. -/
def lockPriceModel : EnrichedModel :=
  { id := "sora-2", owned_by := "openai", category := "🎬 Video Generation",
    input_price := none, output_price := none, per_request := some 3,
    is_lock_price := true }

theorem strContains_empty (s : String) : strContains "" s = true := by
  unfold strContains
  induction s.toList with
  | nil => rfl
  | cons b bs ih => simp [charsContain, strStartsWith]


theorem nthGroup_zero :
    nthGroup 0 = (["sora", "runway", "kling", "luma", "pika", "video"], "🎬 Video Generation") := rfl

theorem nthGroup_one :
    nthGroup 1 = (["suno", "music", "udio"], "🎵 Music Generation") := rfl

theorem nthGroup_two :
    nthGroup 2 = (["tripo", "3d", "mesh"], "🗿 3D Models") := rfl

theorem nthGroup_three :
    nthGroup 3 = (["dall-e", "dalle", "midjourney", "flux", "sd", "stable", "imagen", "ideogram"], "🎨 Image Generation") := rfl

theorem nthGroup_four :
    nthGroup 4 = (["tts", "whisper", "speech", "audio"], "🎤 Audio Processing") := rfl

theorem nthGroup_five :
    nthGroup 5 = (["embedding", "embed"], "📊 Embeddings") := rfl

theorem nthGroup_six :
    nthGroup 6 = (["rerank"], "🔄 Rerank") := rfl

/-- First-match-wins: if group `i` matches and no earlier group does, the
classifier returns group `i`'s label. -/
theorem classify_min (model_id owned_by : String) (i : Nat) (hi7 : i < 7)
    (hmin : ∀ k, k < i → kwMatch (nthGroup k).1 (pyLower model_id) = false)
    (hi : kwMatch (nthGroup i).1 (pyLower model_id) = true) :
    get_model_category model_id owned_by = (nthGroup i).2 := by
  interval_cases i
  · simp [nthGroup_zero] at hi ⊢
    simp [get_model_category, hi]
  · have h0 := hmin 0 (by norm_num)
    simp [nthGroup_zero, nthGroup_one] at hi h0 ⊢
    simp [get_model_category, hi, h0]
  · have h0 := hmin 0 (by norm_num)
    have h1 := hmin 1 (by norm_num)
    simp [nthGroup_zero, nthGroup_one, nthGroup_two] at hi h0 h1 ⊢
    simp [get_model_category, hi, h0, h1]
  · have h0 := hmin 0 (by norm_num)
    have h1 := hmin 1 (by norm_num)
    have h2 := hmin 2 (by norm_num)
    simp [nthGroup_zero, nthGroup_one, nthGroup_two, nthGroup_three] at hi h0 h1 h2 ⊢
    simp [get_model_category, hi, h0, h1, h2]
  · have h0 := hmin 0 (by norm_num)
    have h1 := hmin 1 (by norm_num)
    have h2 := hmin 2 (by norm_num)
    have h3 := hmin 3 (by norm_num)
    simp [nthGroup_zero, nthGroup_one, nthGroup_two, nthGroup_three, nthGroup_four] at hi h0 h1 h2 h3 ⊢
    simp [get_model_category, hi, h0, h1, h2, h3]
  · have h0 := hmin 0 (by norm_num)
    have h1 := hmin 1 (by norm_num)
    have h2 := hmin 2 (by norm_num)
    have h3 := hmin 3 (by norm_num)
    have h4 := hmin 4 (by norm_num)
    simp [nthGroup_zero, nthGroup_one, nthGroup_two, nthGroup_three, nthGroup_four, nthGroup_five] at hi h0 h1 h2 h3 h4 ⊢
    simp [get_model_category, hi, h0, h1, h2, h3, h4]
  · have h0 := hmin 0 (by norm_num)
    have h1 := hmin 1 (by norm_num)
    have h2 := hmin 2 (by norm_num)
    have h3 := hmin 3 (by norm_num)
    have h4 := hmin 4 (by norm_num)
    have h5 := hmin 5 (by norm_num)
    simp [nthGroup_zero, nthGroup_one, nthGroup_two, nthGroup_three, nthGroup_four, nthGroup_five, nthGroup_six] at hi h0 h1 h2 h3 h4 h5 ⊢
    simp [get_model_category, hi, h0, h1, h2, h3, h4, h5]

/-- When no keyword group matches, the classifier falls through to the chat
label. -/
theorem classify_default (model_id owned_by : String)
    (h : ∀ k, k < 7 → kwMatch (nthGroup k).1 (pyLower model_id) = false) :
    get_model_category model_id owned_by = "💬 Chat Completion" := by
  have h0 := h 0 (by norm_num)
  have h1 := h 1 (by norm_num)
  have h2 := h 2 (by norm_num)
  have h3 := h 3 (by norm_num)
  have h4 := h 4 (by norm_num)
  have h5 := h 5 (by norm_num)
  have h6 := h 6 (by norm_num)
  simp [nthGroup_zero, nthGroup_one, nthGroup_two, nthGroup_three, nthGroup_four, nthGroup_five, nthGroup_six] at h0 h1 h2 h3 h4 h5 h6
  simp [get_model_category, h0, h1, h2, h3, h4, h5, h6]

/-- Every value the classifier can return is one of the eight fixed labels. -/
theorem classify_mem (model_id owned_by : String) :
    get_model_category model_id owned_by ∈ categoryLabels := by
  unfold get_model_category
  dsimp only
  split_ifs <;> simp [categoryLabels]


theorem pyLower_empty : pyLower "" = "" := rfl

/-- C1 counterexample: at `inputOnlyModel` (input price present, output price
absent) the code's pricing line reads `Output $None/1M`, not the
`Output $N/A/1M` the claim states, because `enrich_models` always stores the
`output_price` key and so the `"N/A"` default of
`model.get("output_price", "N/A")` never applies to an enriched model. -/
theorem price_str_counterexample :
    price_str inputOnlyModel ≠ "Input $1/1M, Output $N/A/1M" ∧
    price_str inputOnlyModel = "Input $1/1M, Output $None/1M" := by
  constructor
  · decide
  · decide

/-- C1 (amended): the pricing line is selected by Python truthiness, not bare
presence: if `is_lock_price` is true and `per_request` is present and nonzero
the line is `$<per_request>/request`; otherwise if `input_price` is present and
nonzero the line is `Input $<input_price>/1M, Output $<output_price>/1M`, with
an absent `output_price` rendered as `None`; otherwise it is `Pricing TBD`. -/
theorem price_str_selection (m : EnrichedModel) :
    (m.is_lock_price = true → ∀ p, m.per_request = some p → p ≠ 0 →
      price_str m = "$" ++ showNum p ++ "/request")
    ∧ ((m.is_lock_price = false ∨ m.per_request = none ∨ m.per_request = some 0) →
      ∀ q, m.input_price = some q → q ≠ 0 →
      price_str m = "Input $" ++ showNum q ++ "/1M, Output $" ++
        showOptNum m.output_price ++ "/1M")
    ∧ ((m.is_lock_price = false ∨ m.per_request = none ∨ m.per_request = some 0) →
      (m.input_price = none ∨ m.input_price = some 0) →
      price_str m = "Pricing TBD") := by
  refine ⟨fun hl p hp hp0 => ?_, fun hfall q hq hq0 => ?_, fun hfall hin => ?_⟩
  · simp [price_str, hl, hp, truthyNum, hp0, showOptNum]
  · rcases hfall with hcase | hcase | hcase <;>
      simp [price_str, hcase, hq, truthyNum, showOptNum, hq0]
  · rcases hfall with hcase | hcase | hcase <;> rcases hin with hin | hin <;>
      simp [price_str, hcase, hin, truthyNum, showOptNum]

/-- C1 witness: a lock-priced record formats as `$<per_request>/request`. -/
theorem price_str_selection_witness :
    price_str lockPriceModel = "$" ++ showNum 3 ++ "/request" :=
  (price_str_selection lockPriceModel).1 rfl 3 rfl (by norm_num)

/-- C2: when a model identifier matches keyword groups `i < j` of the
classifier's fixed priority order and no group earlier than `i` matches, the
classifier returns group `i`'s category — the earlier of the two. -/
theorem classify_priority_order (model_id owned_by : String) (i j : Nat)
    (hij : i < j) (hj7 : j < 7)
    (hi : kwMatch (nthGroup i).1 (pyLower model_id) = true)
    (hj : kwMatch (nthGroup j).1 (pyLower model_id) = true)
    (hmin : ∀ k, k < i → kwMatch (nthGroup k).1 (pyLower model_id) = false) :
    get_model_category model_id owned_by = (nthGroup i).2 :=
  classify_min model_id owned_by i (lt_trans hij hj7) hmin hi

/-- C2 witness: an id containing both `video` (group 0) and `rerank` (group 6)
classifies as Video Generation. -/
theorem classify_priority_order_witness :
    get_model_category "video-rerank" "x" = "🎬 Video Generation" := by
  have h := classify_priority_order "video-rerank" "x" 0 6 (by norm_num)
    (by norm_num) (by decide) (by decide) (fun k hk => absurd hk (by omega))
  simpa [nthGroup_zero] using h

/-- C3: an identifier matching exactly one keyword group classifies as that
group's category, and an identifier matching no group classifies as Chat
Completion. -/
theorem classify_single_group (model_id owned_by : String) :
    (∀ i, i < 7 → kwMatch (nthGroup i).1 (pyLower model_id) = true →
      (∀ j, j < 7 → j ≠ i → kwMatch (nthGroup j).1 (pyLower model_id) = false) →
      get_model_category model_id owned_by = (nthGroup i).2)
    ∧ ((∀ j, j < 7 → kwMatch (nthGroup j).1 (pyLower model_id) = false) →
      get_model_category model_id owned_by = "💬 Chat Completion") := by
  constructor
  · intro i hi7 hi hothers
    exact classify_min model_id owned_by i hi7
      (fun k hk => hothers k (lt_trans hk hi7) (Nat.ne_of_lt hk)) hi
  · exact classify_default model_id owned_by

/-- C3 witness: `suno-v3` matches only the music group and classifies as Music
Generation; `gpt-4o` matches no group and classifies as Chat Completion. -/
theorem classify_single_group_witness :
    get_model_category "suno-v3" "suno" = "🎵 Music Generation" ∧
    get_model_category "gpt-4o" "openai" = "💬 Chat Completion" := by
  constructor
  · have h := (classify_single_group "suno-v3" "suno").1 1 (by norm_num)
      (by decide) (by decide)
    simpa [nthGroup_one] using h
  · exact (classify_single_group "gpt-4o" "openai").2 (by decide)

/-- C4: a category-only search returns exactly the records whose category
contains the requested substring case-insensitively, in input order, and
adding a keyword filter never increases the result count. -/
theorem search_category_filter_spec (models : List EnrichedModel) (c k : String) :
    search_models models none (some c) =
      models.filter (fun m => strContains (pyLower c) (pyLower m.category))
    ∧ (search_models models (some k) (some c)).length ≤
      (search_models models none (some c)).length := by
  constructor
  · by_cases hc : c = ""
    · subst hc
      simp [search_models, pyLower_empty, strContains_empty]
    · simp [search_models, hc]
  · by_cases hk : k = ""
    · subst hk
      simp [search_models]
    · simp only [search_models]
      rw [if_neg hk]
      exact List.length_filter_le _ _

/-- C5: search with no keyword and no category — and likewise with
empty-string keyword or category, both falsy in Python — returns the input
collection unchanged. -/
theorem search_no_filter_identity (models : List EnrichedModel) :
    search_models models none none = models ∧
    search_models models (some "") none = models ∧
    search_models models none (some "") = models ∧
    search_models models (some "") (some "") = models :=
  ⟨rfl, rfl, rfl, rfl⟩

/-- C6: `enrich_models` is length- and order-preserving — its i-th output is
built from the i-th input by the loop body `enrich_one` — and a model id
absent from the pricing mapping yields the defaults of the empty pricing
record: absent prices and `is_lock_price = false`. -/
theorem enrich_shape_spec (models : List RawModel)
    (pricing : String → Option PriceInfo) :
    (enrich_models models pricing).length = models.length
    ∧ (∀ i : Nat, (enrich_models models pricing).get? i =
        (models.get? i).map (enrich_one pricing))
    ∧ (∀ m : RawModel, pricing m.id = none →
        (enrich_one pricing m).input_price = none ∧
        (enrich_one pricing m).output_price = none ∧
        (enrich_one pricing m).per_request = none ∧
        (enrich_one pricing m).is_lock_price = false) := by
  refine ⟨by simp [enrich_models], fun i => ?_, fun m hm => ?_⟩
  · simp [enrich_models, List.getElem?_map]
  · simp [enrich_one, hm, emptyPriceInfo]

/-- C6 witness: a singleton model list with an empty pricing mapping. -/
theorem enrich_shape_spec_witness :
    (enrich_models [RawModel.mk "gpt-4o" "openai"] (fun _ => none)).get? 0 =
      some (enrich_one (fun _ => none) (RawModel.mk "gpt-4o" "openai")) ∧
    (enrich_one (fun _ => none) (RawModel.mk "gpt-4o" "openai")).is_lock_price
      = false := by
  have h := enrich_shape_spec [RawModel.mk "gpt-4o" "openai"] (fun _ => none)
  exact ⟨by rw [h.2.1 0]; rfl,
    (h.2.2 (RawModel.mk "gpt-4o" "openai") rfl).2.2.2⟩

/-- C7: a request exception makes `fetch_models` raise (so the fetch stage
exits with code 1), while the same exception makes `fetch_pricing` return the
empty mapping, and a pricing failure alone never aborts the run. -/
theorem fetch_failure_asymmetry (e : String) (mr : HttpResult (List RawModel))
    (pr : HttpResult (List PricingItem)) :
    fetch_models (HttpResult.failure e) =
      Except.error ("Failed to fetch model list: " ++ e)
    ∧ fetch_pricing (HttpResult.failure e) = (fun _ => none)
    ∧ fetch_stage_exit (HttpResult.failure e) pr = 1
    ∧ (∀ ms, fetch_models mr = Except.ok ms →
        fetch_stage_exit mr (HttpResult.failure e) = 0) := by
  refine ⟨rfl, rfl, rfl, fun ms hms => ?_⟩
  simp [fetch_stage_exit, run_fetch_stage, hms]

/-- C7 witness: a failing pricing fetch yields no pricing entry, and together
with a successful models fetch the stage still exits with code 0. -/
theorem fetch_failure_asymmetry_witness :
    fetch_pricing (HttpResult.failure "boom") "gpt-4o" = none ∧
    fetch_stage_exit (HttpResult.success (some []))
      (HttpResult.failure "boom") = 0 := by
  have h := fetch_failure_asymmetry "boom" (HttpResult.success (some []))
    (HttpResult.failure "boom")
  exact ⟨congrFun h.2.1 "gpt-4o", h.2.2.2 [] rfl⟩

/-- C8: every record `enrich_models` produces carries exactly one category
drawn from the closed set of eight labels, with Chat Completion as the default
when no keyword group matches. -/
theorem enriched_category_closed (models : List RawModel)
    (pricing : String → Option PriceInfo) :
    (∀ m ∈ enrich_models models pricing, m.category ∈ categoryLabels)
    ∧ (∀ model_id owned_by : String,
        (∀ k, k < 7 → kwMatch (nthGroup k).1 (pyLower model_id) = false) →
        get_model_category model_id owned_by = "💬 Chat Completion") := by
  constructor
  · intro m hm
    rw [enrich_models] at hm
    obtain ⟨r, _, rfl⟩ := List.mem_map.mp hm
    exact classify_mem r.id r.owned_by
  · exact fun mid ob h => classify_default mid ob h

/-- C8 witness: the enrichment of `gpt-4o` has a category in the closed label
set, namely the Chat Completion default. -/
theorem enriched_category_closed_witness :
    (enrich_one (fun _ => none) (RawModel.mk "gpt-4o" "openai")).category
      ∈ categoryLabels ∧
    get_model_category "gpt-4o" "openai" = "💬 Chat Completion" := by
  have h := enriched_category_closed [RawModel.mk "gpt-4o" "openai"]
    (fun _ => none)
  exact ⟨h.1 _ (by simp [enrich_models]), h.2 "gpt-4o" "openai" (by decide)⟩

/-- C9: `get_api_endpoint` maps each of the eight labels to its static path —
Rerank to `/v1/rerank` — and any string outside the table falls back to the
Chat Completion endpoint. -/
theorem endpoint_table_spec :
    (get_api_endpoint "💬 Chat Completion" = "/v1/chat/completions" ∧
     get_api_endpoint "🎨 Image Generation" = "/v1/images/generations" ∧
     get_api_endpoint "🎬 Video Generation" = "/v1/video/generations" ∧
     get_api_endpoint "🎵 Music Generation" = "/v1/music/generations" ∧
     get_api_endpoint "🗿 3D Models" = "/v1/3d/generations" ∧
     get_api_endpoint "🎤 Audio Processing" =
       "/v1/audio/speech or /v1/audio/transcriptions" ∧
     get_api_endpoint "📊 Embeddings" = "/v1/embeddings" ∧
     get_api_endpoint "🔄 Rerank" = "/v1/rerank")
    ∧ ∀ c, c ∉ categoryLabels → get_api_endpoint c = "/v1/chat/completions" := by
  constructor
  · exact ⟨by decide, by decide, by decide, by decide, by decide, by decide,
      by decide, by decide⟩
  · intro c hc
    simp only [categoryLabels, List.mem_cons, List.not_mem_nil, or_false,
      not_or] at hc
    obtain ⟨h1, h2, h3, h4, h5, h6, h7, h8⟩ := hc
    simp [get_api_endpoint, h1, h2, h3, h4, h5, h6, h7, h8]

/-- C9 witness: the bare string `Rerank` is not one of the eight labels and
falls back to the Chat Completion endpoint. -/
theorem endpoint_table_spec_witness :
    "Rerank" ∉ categoryLabels ∧
    get_api_endpoint "Rerank" = "/v1/chat/completions" :=
  ⟨by decide, endpoint_table_spec.2 "Rerank" (by decide)⟩

/-- C10: the classifier's output depends only on the model identifier — the
`owned_by` argument never influences it. -/
theorem classify_ignores_owner (model_id o1 o2 : String) :
    get_model_category model_id o1 = get_model_category model_id o2 := rfl
